import Mathlib

/-!
Verification development for `pymrio/tools/ntnu.py`.

The module under verification is a one-shot format adapter: `parse_mat`
converts a matlab `.mat` container (as deserialized by `scipy.io.loadmat`
with `struct_as_record=False, squeeze_me=True`) into a pymrio `IOSystem`
object, driven by the declarative field-location map `MAT_STRUCTURE`.

The shallow embedding below mirrors the source line by line:

* the loaded container is an association list of named sections, each an
  association list of named values (matlab struct fields);
* label tables are two-dimensional lists of cells; a cell is either a
  Python `str` or a squeezed array value of a known length (this is how
  `loadmat` delivers char data: non-empty labels as `str`, empty cells as
  length-0 arrays);
* numeric matrices are stored either dense or sparse, and
  `scipy.sparse.issparse` dispatch with `todense` is modelled by
  `toDenseIfSparse`;
* fallible Python operations (dict lookup, attribute lookup, numpy column
  slicing, `pd.DataFrame` / `pd.MultiIndex.from_arrays` shape checks)
  return `Except PyErr`;
* the module-level behaviour (the `logging.debug` call against the list of
  names actually imported at module top, and the single file read) is
  captured by a small writer-over-`Except` monad `EffM` recording an
  effect trace.
-/

set_option autoImplicit false

namespace NTNU

/-- Python exception kinds raised by the operations the module performs. -/
inductive PyErr where
  | nameError
  | keyError
  | typeError
  | indexError
  | valueError
  | fileError
  deriving DecidableEq

/-- A cell of a matlab label table as delivered by `scipy.io.loadmat` with
`squeeze_me=True`: either a Python `str` (char data) or a squeezed array
value of a given length.  Empty label cells arrive as length-0 arrays, not
as `str`. -/
inductive MatCell where
  | str (s : String)
  | arr (n : Nat)
  deriving DecidableEq

/-- Python `len()` on a label cell. -/
def pyLen : MatCell → Nat
  | .str s => s.length
  | .arr n => n

/-- Python `type(x) is str` on a label cell. -/
def MatCell.isStr : MatCell → Bool
  | .str _ => true
  | .arr _ => false

/-- A dense two-dimensional numeric array (row-major list of rows), the
result of `todense()` or a dense array in the container. -/
structure DenseM where
  data : List (List Int)
  deriving DecidableEq

/-- Row count of a dense array (numpy `shape[0]`). -/
def DenseM.rows (m : DenseM) : Nat := m.data.length

/-- Column count of a dense array (numpy `shape[1]`; rows are rectangular
in numpy, so the first row's length is the column count). -/
def DenseM.cols (m : DenseM) : Nat :=
  match m.data with
  | [] => 0
  | r :: _ => r.length

/-- A sparse matrix: an explicit shape plus coordinate entries.  `todense`
materialises the shape and sums the entries at each coordinate, which is
the scipy coordinate-format semantics. -/
structure SparseM where
  rows : Nat
  cols : Nat
  entries : List (Nat × Nat × Int)
  deriving DecidableEq

/-- The `todense()` conversion of a sparse matrix. -/
def SparseM.toDense (s : SparseM) : DenseM :=
  ⟨(List.range s.rows).map fun r =>
    (List.range s.cols).map fun c =>
      ((s.entries.filter fun e => e.1 == r && e.2.1 == c).foldl
        (fun acc e => acc + e.2.2) 0)⟩

/-- Storage form of a numeric matrix in the container: dense or sparse.
`scipy.sparse.issparse` is exactly the distinction between the two
constructors. -/
inductive MStorage where
  | dense (m : DenseM)
  | sparse (s : SparseM)
  deriving DecidableEq

/-- The expression `x.todense() if scipy.sparse.issparse(x) else x` from
the source (applied to each of the four matrices). -/
def toDenseIfSparse : MStorage → DenseM
  | .dense m => m
  | .sparse s => s.toDense

/-- A value stored in a field of the loaded container: a numeric matrix, a
two-dimensional label table, a one-dimensional cell vector, a scalar
string, or a scalar integer. -/
inductive MatValue where
  | matrixV (m : MStorage)
  | table (t : List (List MatCell))
  | vec (v : List MatCell)
  | strV (s : String)
  | intV (z : Int)
  deriving DecidableEq

/-- A matlab struct (attribute dictionary), as an association list. -/
abbrev PyDict := List (String × MatValue)

/-- The whole deserialized `.mat` container: top-level variable names to
matlab structs (the module reads the `data` and `meta` sections). -/
abbrev MatFile := List (String × PyDict)

/-- Dictionary access `container[key]` on the top level of the container;
a missing key raises `KeyError`. -/
def getSection (f : MatFile) (k : String) : Except PyErr PyDict :=
  match f.lookup k with
  | some d => .ok d
  | none => .error .keyError

/-- Attribute access `section.__dict__[key]`; a missing key raises
`KeyError`. -/
def dictGet (d : PyDict) (k : String) : Except PyErr MatValue :=
  match d.lookup k with
  | some v => .ok v
  | none => .error .keyError

/-- Use of a stored value as a two-dimensional label table; a value of a
different kind fails (the numpy indexing the source performs on it is a
type error). -/
def asTable : MatValue → Except PyErr (List (List MatCell))
  | .table t => .ok t
  | _ => .error .typeError

/-- Use of a stored value as a one-dimensional cell vector. -/
def asVec : MatValue → Except PyErr (List MatCell)
  | .vec v => .ok v
  | _ => .error .typeError

/-- Use of a stored value as a numeric matrix (dense or sparse). -/
def asMatrix : MatValue → Except PyErr MStorage
  | .matrixV m => .ok m
  | _ => .error .typeError

/-- The numpy column slice `table[:, j].tolist()`: the j-th entry of every
row; a row without a j-th entry is an `IndexError` (the array would not
have enough columns). -/
def colSlice (t : List (List MatCell)) (j : Nat) : Except PyErr (List MatCell) :=
  t.mapM fun row =>
    match row.get? j with
    | some c => Except.ok c
    | none => Except.error PyErr.indexError

/-- The source pattern `section.__dict__[key][:, j].tolist()`: one
attribute access followed by one column slice. -/
def colSliceOf (d : PyDict) (k : String) (j : Nat) : Except PyErr (List MatCell) := do
  let t ← asTable (← dictGet d k)
  colSlice t j

/-- The source pattern for the four matrices: attribute access, then the
`issparse`/`todense` dispatch. -/
def getDense (d : PyDict) (k : String) : Except PyErr DenseM := do
  let v ← dictGet d k
  let s ← asMatrix v
  pure (toDenseIfSparse s)

/-- A row or column label of the monetary, final-demand or stressor axes:
an ordered pair of cells as produced by `pd.MultiIndex.from_arrays`. -/
abbrev Lab := MatCell × MatCell

/-- The `pd.MultiIndex.from_arrays([a, b])` call: the positional pairing
of the two label columns; pandas rejects columns of different lengths. -/
def mkMultiIndex (a b : List MatCell) : Except PyErr (List Lab) :=
  if a.length = b.length then .ok (a.zip b) else .error .valueError

/-- A labelled numeric table as built by `pd.DataFrame(data, index,
columns)` with a two-dimensional data argument. -/
structure DataFrame where
  index : List Lab
  columns : List Lab
  values : DenseM
  deriving DecidableEq

/-- The `pd.DataFrame` constructor on two-dimensional data: pandas raises
`ValueError` when the data shape disagrees with the index and column
lengths. -/
def mkDataFrame (m : DenseM) (idx cols : List Lab) : Except PyErr DataFrame :=
  if m.rows = idx.length ∧ m.cols = cols.length then
    .ok ⟨idx, cols, m⟩
  else .error .valueError

/-- A labelled single-column table as built by `pd.DataFrame(data, index,
columns)` with one-dimensional data (the two unit tables). -/
structure UnitFrame where
  index : List Lab
  columns : List String
  values : List MatCell
  deriving DecidableEq

/-- The `pd.DataFrame` constructor on one-dimensional data and an explicit
single-name column list: pandas raises `ValueError` when the data length
disagrees with the index length or when more than one column name is
passed for one-dimensional data. -/
def mkSeriesFrame (v : List MatCell) (idx : List Lab) (cols : List String) :
    Except PyErr UnitFrame :=
  if v.length = idx.length ∧ cols.length = 1 then
    .ok ⟨idx, cols, v⟩
  else .error .valueError

/-- Modelled from the spec: the Domain Object's nested satellite-accounts
sub-object (the `Extension` class lives outside the sources at hand; the
spec describes it as accepting a name, the two factor-input tables and
their unit table). -/
structure Extension where
  name : String
  F : DataFrame
  F_hh : DataFrame
  unit : UnitFrame
  deriving DecidableEq

/-- Modelled from the spec: the Provenance Record (`MRIOMetaData` lives
outside the sources at hand; the spec describes a constructor taking a
location, a description, a name, a system tag and a version, plus a method
appending one free-text log line). -/
structure MRIOMetaData where
  location : String
  description : String
  name : String
  system : String
  version : MatValue
  fileio_log : List String
  deriving DecidableEq

/-- Modelled from the spec: the log-appending method `_add_fileio`. -/
def MRIOMetaData.addFileio (m : MRIOMetaData) (entry : String) : MRIOMetaData :=
  { m with fileio_log := m.fileio_log ++ [entry] }

/-- Modelled from the spec: the Domain Object's attribute surface as this
module populates it (the `IOSystem` class lives outside the sources at
hand).  The `meta` attribute records whether this module attached a
provenance record to the object; `parse_mat` never assigns it, so it keeps
its default. -/
structure IOSystem where
  name : String
  version : MatValue
  year : MatValue
  iosystem : String
  Z : DataFrame
  Y : DataFrame
  unit : UnitFrame
  satellite : Extension
  meta : Option MRIOMetaData := none
  deriving DecidableEq

/-- The field-location map: the keys and column slices of `MAT_STRUCTURE`
(`np.index_exp[:, j]` is the column index `j`). -/
structure MatStruct where
  data : String
  meta : String
  Z : String
  Y : String
  F : String
  F_hh : String
  mon_labels : String
  mon_sec_slice : Nat
  mon_reg_slice : Nat
  mon_unit : String
  fd_labels : String
  fd_cat_slice : Nat
  fd_reg_slice : Nat
  stress_labels : String
  stress_name_slice : Nat
  stress_comp_slice : Nat
  stress_unit_slice : Nat
  version : String
  year : String
  empty_comp : String
  deriving DecidableEq

/-- The module-level default field map `MAT_STRUCTURE`. -/
def MAT_STRUCTURE : MatStruct where
  data := "IO"
  meta := "meta"
  Z := "Z"
  Y := "Y"
  F := "F"
  F_hh := "F_hh"
  mon_labels := "labsZ"
  mon_sec_slice := 1
  mon_reg_slice := 5
  mon_unit := "unit"
  fd_labels := "labsY"
  fd_cat_slice := 1
  fd_reg_slice := 4
  stress_labels := "labsF"
  stress_name_slice := 0
  stress_comp_slice := 1
  stress_unit_slice := 2
  version := "ver"
  year := "years"
  empty_comp := "n/a"

/-- One row of the compartment fallback (first comprehension, lines
126-128 of the source): `struct['empty_comp'] if len(unit) == 0 else
orig_comp`. -/
def stressCompOut (empty_comp : String) (unit orig_comp : MatCell) : MatCell :=
  if pyLen unit = 0 then .str empty_comp else orig_comp

/-- One row of the unit fallback (second comprehension, lines 129-131 of
the source): `unit_orig if type(unit_orig) is str else unit_in_comp`. -/
def stressUnitOut (unit_orig unit_in_comp : MatCell) : MatCell :=
  if unit_orig.isStr then unit_orig else unit_in_comp

/-- The full compartment-fallback comprehension over the two sliced
columns (`zip(_ll_stress_unit, _ll_stress_comp)`). -/
def llStressComp (empty_comp : String) (units comps : List MatCell) : List MatCell :=
  List.zipWith (stressCompOut empty_comp) units comps

/-- The full unit-fallback comprehension over the two sliced columns. -/
def llStressUnit (units comps : List MatCell) : List MatCell :=
  List.zipWith stressUnitOut units comps

/-- The last path component is stripped by `os.path.dirname`: everything
before the final separator (modelled character-wise for relative,
already-normalized paths, which is what the claims exercise). -/
def dirname (p : String) : String :=
  ⟨((p.data.reverse.dropWhile fun c => c ≠ '/').drop 1).reverse⟩

/-- The provenance record built at lines 211-219 of the source: the
`MRIOMetaData` constructor call followed by the `_add_fileio` call. -/
def parse_mat_meta_rec (mat_file name system : String) (ver : MatValue) :
    MRIOMetaData :=
  (MRIOMetaData.mk (dirname mat_file) "MRIO parsed from NTNU mat structure"
    name system ver []).addFileio
    ("MAT MRIO structure parsed from " ++ mat_file)

/-- The body of `parse_mat` from the two section accesses onward (source
lines 107-220), in the source's exact statement order.  The returned value
is the `io_to_py` object; the provenance record is built and then, as in
the source, not used further. -/
def parse_sections (mat_io_sec mat_meta : PyDict)
    (mat_file name io_system : String) (st : MatStruct) :
    Except PyErr IOSystem := do
  let ll_sec ← colSliceOf mat_meta st.mon_labels st.mon_sec_slice
  let ll_reg ← colSliceOf mat_meta st.mon_labels st.mon_reg_slice
  let ll_fd_cat ← colSliceOf mat_meta st.fd_labels st.fd_cat_slice
  let ll_fd_reg ← colSliceOf mat_meta st.fd_labels st.fd_reg_slice
  let ll_stress_names ← colSliceOf mat_meta st.stress_labels st.stress_name_slice
  let ll_stress_comp0 ← colSliceOf mat_meta st.stress_labels st.stress_comp_slice
  let ll_stress_unit0 ← colSliceOf mat_meta st.stress_labels st.stress_unit_slice
  let ll_stress_comp := llStressComp st.empty_comp ll_stress_unit0 ll_stress_comp0
  let ll_stress_unit := llStressUnit ll_stress_unit0 ll_stress_comp0
  let multiind_mon ← mkMultiIndex ll_reg ll_sec
  let multiind_fd_col ← mkMultiIndex ll_fd_reg ll_fd_cat
  let multiind_stress_row ← mkMultiIndex ll_stress_names ll_stress_comp
  let ss_version ← dictGet mat_meta st.version
  let ss_year ← dictGet mat_meta st.year
  let ss_io_system := io_system
  let mZ ← getDense mat_io_sec st.Z
  let df_Z ← mkDataFrame mZ multiind_mon multiind_mon
  let mY ← getDense mat_io_sec st.Y
  let df_Y ← mkDataFrame mY multiind_mon multiind_fd_col
  let mF ← getDense mat_io_sec st.F
  let df_F ← mkDataFrame mF multiind_stress_row multiind_mon
  let mFhh ← getDense mat_io_sec st.F_hh
  let df_F_hh ← mkDataFrame mFhh multiind_stress_row multiind_fd_col
  let vMonUnit ← asVec (← dictGet mat_meta st.mon_unit)
  let df_mon_unit ← mkSeriesFrame vMonUnit multiind_mon ["unit"]
  let df_F_unit ← mkSeriesFrame ll_stress_unit multiind_stress_row ["unit"]
  let io_to_py : IOSystem :=
    { name := name
      version := ss_version
      year := ss_year
      iosystem := ss_io_system
      Z := df_Z
      Y := df_Y
      unit := df_mon_unit
      satellite :=
        { name := "Satellite Accounts"
          F := df_F
          F_hh := df_F_hh
          unit := df_F_unit } }
  let _meta_rec := parse_mat_meta_rec mat_file name ss_io_system ss_version
  pure io_to_py

/-- The conversion applied to an already-loaded container: the two
top-level section accesses (source lines 104-105) followed by
`parse_sections`. -/
def parse_mat_core (mat_all : MatFile) (mat_file name io_system : String)
    (st : MatStruct) : Except PyErr IOSystem := do
  let mat_io_sec ← getSection mat_all st.data
  let mat_meta ← getSection mat_all st.meta
  parse_sections mat_io_sec mat_meta mat_file name io_system st

/-- Observable effects of a call: the single file read the module
performs, plus the write and global-mutation effects it could in
principle perform (it never does; the trace makes that provable). -/
inductive Effect where
  | fileRead (path : String)
  | fileWrite (path : String)
  | globalMutate (g : String)
  deriving DecidableEq

/-- True exactly on the read effect. -/
def Effect.isRead : Effect → Bool
  | .fileRead _ => true
  | .fileWrite _ => false
  | .globalMutate _ => false

/-- A writer-over-`Except` monad: a result together with the list of
effects performed before the result (or the error) was produced. -/
def EffM (α : Type) : Type := Except PyErr α × List Effect

/-- Effectful sequencing: an error stops the computation, keeping the
effects performed so far. -/
def effBind {α β : Type} (x : EffM α) (f : α → EffM β) : EffM β :=
  match x with
  | (.error e, t) => (.error e, t)
  | (.ok a, t) => ((f a).1, t ++ (f a).2)

/-- Lift a pure fallible computation into `EffM` (no effects). -/
def liftE {α : Type} (x : Except PyErr α) : EffM α := (x, [])

/-- The names bound at module top level by the import statements of
`ntnu.py` (source lines 5-17): `os`, `Path`, `pd`, `np`, `scipy` (bound by
`import scipy.io`), `IOSystem`, `Extension`, `MRIOMetaData`,
`PYMRIO_PATH`.  The name `logging` is not among them. -/
def moduleImports : List String :=
  ["os", "Path", "pd", "np", "scipy", "IOSystem", "Extension",
   "MRIOMetaData", "PYMRIO_PATH"]

/-- The statement `logging.debug(msg)`: resolving the name `logging`
against the module's bindings; an unbound name raises `NameError` before
the call's argument matters. -/
def logging_debug (_msg : String) : EffM Unit :=
  if moduleImports.contains "logging" then (.ok (), []) else (.error .nameError, [])

/-- Path-string cleanup `os.path.normpath(str(mat_file))` is purely
syntactic; paths are modelled as already-normal strings, so it is the
identity here.  No verified claim depends on its cleanup rules. -/
def normpath (p : String) : String := p

/-- The `scipy.io.loadmat` call: one read of the file; an unreadable or
undeserializable file is an error after the read attempt. -/
def loadmat (fs : String → Option MatFile) (path : String) : EffM MatFile :=
  match fs path with
  | some m => (.ok m, [.fileRead path])
  | none => (.error .fileError, [.fileRead path])

/-- The part of `parse_mat` after the `logging.debug` call: load the file,
then run the pure conversion on the loaded container. -/
def parse_mat_body (fs : String → Option MatFile)
    (mat_file name io_system : String) (st : MatStruct) : EffM IOSystem :=
  effBind (loadmat fs mat_file) fun mat_all =>
    liftE (parse_mat_core mat_all mat_file name io_system st)

/-- The full `parse_mat` function (source lines 62-220): path
normalization, the `logging.debug` call (which fails by name resolution,
since the module never imports `logging`), then the body. -/
def parse_mat (fs : String → Option MatFile)
    (mat_file name io_system : String) (st : MatStruct) : EffM IOSystem :=
  let mat_file := normpath mat_file
  effBind (logging_debug ("PARSER: Read matlab data from " ++ mat_file)) fun _ =>
    parse_mat_body fs mat_file name io_system st

/-! ### Derived accessors used to state the claims -/

/-- The monetary sector label column as the module reads it. -/
def monSecsOf (f : MatFile) (st : MatStruct) : Except PyErr (List MatCell) := do
  let m ← getSection f st.meta
  colSliceOf m st.mon_labels st.mon_sec_slice

/-- The monetary region label column as the module reads it. -/
def monRegsOf (f : MatFile) (st : MatStruct) : Except PyErr (List MatCell) := do
  let m ← getSection f st.meta
  colSliceOf m st.mon_labels st.mon_reg_slice

/-- The final-demand category label column as the module reads it. -/
def fdCatsOf (f : MatFile) (st : MatStruct) : Except PyErr (List MatCell) := do
  let m ← getSection f st.meta
  colSliceOf m st.fd_labels st.fd_cat_slice

/-- The final-demand region label column as the module reads it. -/
def fdRegsOf (f : MatFile) (st : MatStruct) : Except PyErr (List MatCell) := do
  let m ← getSection f st.meta
  colSliceOf m st.fd_labels st.fd_reg_slice

/-- The flow matrix, densified, as the module reads it. -/
def flowDenseOf (f : MatFile) (st : MatStruct) : Except PyErr DenseM := do
  let d ← getSection f st.data
  getDense d st.Z

/-- All keys the adapter dereferences are present in the deserialized
container at their expected nesting level. -/
def requiredKeysPresent (st : MatStruct) (f : MatFile) : Bool :=
  match f.lookup st.data, f.lookup st.meta with
  | some dsec, some msec =>
      (dsec.lookup st.Z).isSome && (dsec.lookup st.Y).isSome &&
      (dsec.lookup st.F).isSome && (dsec.lookup st.F_hh).isSome &&
      (msec.lookup st.mon_labels).isSome && (msec.lookup st.fd_labels).isSome &&
      (msec.lookup st.stress_labels).isSome && (msec.lookup st.mon_unit).isSome &&
      (msec.lookup st.version).isSome && (msec.lookup st.year).isSome
  | _, _ => false

/-- Internal consistency of a returned Domain Object: the four matrices
and the two unit tables are mutually aligned, and every value block has
exactly the shape its label sequences imply. -/
def ConsistentObj (o : IOSystem) : Prop :=
  o.Z.columns = o.Z.index ∧
  o.Z.values.rows = o.Z.index.length ∧
  o.Z.values.cols = o.Z.index.length ∧
  o.Y.index = o.Z.index ∧
  o.Y.values.rows = o.Y.index.length ∧
  o.Y.values.cols = o.Y.columns.length ∧
  o.unit.index = o.Z.index ∧
  o.unit.values.length = o.unit.index.length ∧
  o.satellite.F.columns = o.Z.index ∧
  o.satellite.F.values.rows = o.satellite.F.index.length ∧
  o.satellite.F.values.cols = o.Z.index.length ∧
  o.satellite.F_hh.index = o.satellite.F.index ∧
  o.satellite.F_hh.columns = o.Y.columns ∧
  o.satellite.F_hh.values.rows = o.satellite.F_hh.index.length ∧
  o.satellite.F_hh.values.cols = o.satellite.F_hh.columns.length ∧
  o.satellite.unit.index = o.satellite.F.index ∧
  o.satellite.unit.values.length = o.satellite.unit.index.length

/-! ### Re-encoding a container's data section densely (for the
sparse/dense round-trip claim) -/

/-- Replace a stored matrix by its dense form; leave every other value
kind unchanged. -/
def densifyValue : MatValue → MatValue
  | .matrixV s => .matrixV (.dense (toDenseIfSparse s))
  | v => v

/-- Densify every value of a section. -/
def densifyDict (d : PyDict) : PyDict :=
  d.map fun p => (p.1, densifyValue p.2)

/-- Densify the data section of a container: the same logical matrices,
now all stored in the dense encoding. -/
def densifyDataSection (st : MatStruct) (f : MatFile) : MatFile :=
  f.map fun p => (p.1, if p.1 = st.data then densifyDict p.2 else p.2)

/-! ### Concrete containers used as witnesses -/

/-- Meta section of a small valid container: two monetary labels (regions
R1, R2 in column 5, sectors S1, S2 in column 1), one final-demand label
(region R1 in column 4, category FD1 in column 1), one stressor (name CO2,
compartment air, unit kg). -/
def sampleMeta : PyDict :=
  [("labsZ", .table
      [[.str "x", .str "S1", .str "x", .str "x", .str "x", .str "R1"],
       [.str "x", .str "S2", .str "x", .str "x", .str "x", .str "R2"]]),
   ("labsY", .table
      [[.str "x", .str "FD1", .str "x", .str "x", .str "R1"]]),
   ("labsF", .table [[.str "CO2", .str "air", .str "kg"]]),
   ("unit", .vec [.str "MEUR", .str "MEUR"]),
   ("ver", .strV "v1"),
   ("years", .intV 2000)]

/-- Data section of the small valid container: a 2x2 flow matrix, a 2x1
final-demand matrix, a 1x2 factor-input matrix and a 1x1 household
factor-input matrix, all stored dense. -/
def sampleData : PyDict :=
  [("Z", .matrixV (.dense ⟨[[1, 2], [3, 4]]⟩)),
   ("Y", .matrixV (.dense ⟨[[5], [6]]⟩)),
   ("F", .matrixV (.dense ⟨[[7, 8]]⟩)),
   ("F_hh", .matrixV (.dense ⟨[[9]]⟩))]

/-- The small valid container. -/
def sampleFile : MatFile := [("IO", sampleData), ("meta", sampleMeta)]

/-- The monetary label pairs of the small container. -/
def sampleMon : List Lab := [(.str "R1", .str "S1"), (.str "R2", .str "S2")]

/-- The final-demand label pairs of the small container. -/
def sampleFd : List Lab := [(.str "R1", .str "FD1")]

/-- The stressor label pairs of the small container. -/
def sampleStress : List Lab := [(.str "CO2", .str "air")]

/-- The Domain Object the conversion produces from `sampleFile` with name
`nm` and system tag `pxp`. -/
def sampleObj : IOSystem :=
  { name := "nm"
    version := .strV "v1"
    year := .intV 2000
    iosystem := "pxp"
    Z := ⟨sampleMon, sampleMon, ⟨[[1, 2], [3, 4]]⟩⟩
    Y := ⟨sampleMon, sampleFd, ⟨[[5], [6]]⟩⟩
    unit := ⟨sampleMon, ["unit"], [.str "MEUR", .str "MEUR"]⟩
    satellite :=
      ⟨"Satellite Accounts",
       ⟨sampleStress, sampleMon, ⟨[[7, 8]]⟩⟩,
       ⟨sampleStress, sampleFd, ⟨[[9]]⟩⟩,
       ⟨sampleStress, ["unit"], [.str "kg"]⟩⟩ }

/-- The same container with the flow matrix stored in the sparse
encoding of the same values. -/
def sparseFile : MatFile :=
  [("IO",
    [("Z", .matrixV (.sparse ⟨2, 2, [(0, 0, 1), (0, 1, 2), (1, 0, 3), (1, 1, 4)]⟩)),
     ("Y", .matrixV (.dense ⟨[[5], [6]]⟩)),
     ("F", .matrixV (.dense ⟨[[7, 8]]⟩)),
     ("F_hh", .matrixV (.dense ⟨[[9]]⟩))]),
   ("meta", sampleMeta)]

/-- The small container with one stressor row whose compartment field
holds `air` and whose unit field holds the empty string. -/
def emptyUnitFile : MatFile :=
  [("IO", sampleData),
   ("meta",
    [("labsZ", .table
        [[.str "x", .str "S1", .str "x", .str "x", .str "x", .str "R1"],
         [.str "x", .str "S2", .str "x", .str "x", .str "x", .str "R2"]]),
     ("labsY", .table
        [[.str "x", .str "FD1", .str "x", .str "x", .str "R1"]]),
     ("labsF", .table [[.str "CO2", .str "air", .str ""]]),
     ("unit", .vec [.str "MEUR", .str "MEUR"]),
     ("ver", .strV "v1"),
     ("years", .intV 2000)])]

/-- The run of the conversion on `emptyUnitFile`. -/
def emptyUnitRun : Except PyErr IOSystem :=
  parse_mat_core emptyUnitFile "d/io.mat" "nm" "pxp" MAT_STRUCTURE

/-- The stressor unit column of the object returned for `emptyUnitFile`
(the empty list if the run failed). -/
def emptyUnitRunUnits : List MatCell :=
  match emptyUnitRun with
  | .ok o => o.satellite.unit.values
  | .error _ => []

/-- The stressor index of the object returned for `emptyUnitFile`. -/
def emptyUnitRunIndex : List Lab :=
  match emptyUnitRun with
  | .ok o => o.satellite.F.index
  | .error _ => []

/-- Whether the run on `emptyUnitFile` succeeded. -/
def emptyUnitRunOk : Bool :=
  match emptyUnitRun with
  | .ok _ => true
  | .error _ => false

/-- The small valid container with the flow-matrix key `Z` removed from
the data section. -/
def missingKeyFile : MatFile :=
  [("IO",
    [("Y", .matrixV (.dense ⟨[[5], [6]]⟩)),
     ("F", .matrixV (.dense ⟨[[7, 8]]⟩)),
     ("F_hh", .matrixV (.dense ⟨[[9]]⟩))]),
   ("meta", sampleMeta)]

/-! ### Helper lemmas -/

deriving instance DecidableEq for Except

theorem bind_ok_iff {α β : Type} {x : Except PyErr α} {f : α → Except PyErr β} {b : β} :
    x >>= f = .ok b ↔ ∃ a, x = .ok a ∧ f a = .ok b := by
  cases x <;> simp [Bind.bind, Except.bind]

theorem pure_ok_iff {α : Type} {a b : α} :
    (pure a : Except PyErr α) = .ok b ↔ a = b := by
  simp [pure, Except.pure]

theorem mkMultiIndex_ok_iff {a b : List MatCell} {m : List Lab} :
    mkMultiIndex a b = .ok m ↔ a.length = b.length ∧ m = a.zip b := by
  unfold mkMultiIndex
  split
  · simp_all [eq_comm]
  · simp_all

theorem mkDataFrame_ok_iff {m : DenseM} {idx cols : List Lab} {df : DataFrame} :
    mkDataFrame m idx cols = .ok df ↔
      m.rows = idx.length ∧ m.cols = cols.length ∧ df = ⟨idx, cols, m⟩ := by
  unfold mkDataFrame
  split
  · simp_all [eq_comm]
  · simp_all [not_and_or]

theorem mkSeriesFrame_ok_iff {v : List MatCell} {idx : List Lab} {cols : List String}
    {uf : UnitFrame} :
    mkSeriesFrame v idx cols = .ok uf ↔
      v.length = idx.length ∧ cols.length = 1 ∧ uf = ⟨idx, cols, v⟩ := by
  unfold mkSeriesFrame
  split
  · simp_all [eq_comm]
  · simp_all [not_and_or]

theorem asVec_ok_iff {v : MatValue} {l : List MatCell} :
    asVec v = .ok l ↔ v = .vec l := by
  cases v <;> simp [asVec]

theorem getSection_ok_lookup {f : MatFile} {k : String} {d : PyDict}
    (h : getSection f k = .ok d) : f.lookup k = some d := by
  unfold getSection at h
  cases hl : f.lookup k <;> simp [hl] at h
  simp [h]

theorem dictGet_ok_lookup {d : PyDict} {k : String} {v : MatValue}
    (h : dictGet d k = .ok v) : d.lookup k = some v := by
  unfold dictGet at h
  cases hl : d.lookup k <;> simp [hl] at h
  simp [h]

theorem colSliceOf_ok_lookup {d : PyDict} {k : String} {j : Nat} {l : List MatCell}
    (h : colSliceOf d k j = .ok l) : (d.lookup k).isSome := by
  unfold colSliceOf at h
  rw [bind_ok_iff] at h
  obtain ⟨v, hv, -⟩ := h
  rw [dictGet_ok_lookup hv]
  rfl

theorem getDense_ok_lookup {d : PyDict} {k : String} {m : DenseM}
    (h : getDense d k = .ok m) : (d.lookup k).isSome := by
  unfold getDense at h
  rw [bind_ok_iff] at h
  obtain ⟨v, hv, -⟩ := h
  rw [dictGet_ok_lookup hv]
  rfl

/-! ### Claim C1: the unresolved `logging` name -/

/-- Claim C1: every invocation of `parse_mat`, whatever the file path,
name, io_system and struct arguments and whatever is on disk, raises an
unhandled `NameError` at the `logging.debug` call right after path
normalization, because the module never imports `logging`; the empty
effect trace shows the file is never even opened, so no call returns a
domain object. -/
theorem C1_logging_name_error :
    ∀ (fs : String → Option MatFile) (mat_file name io_system : String) (st : MatStruct),
    parse_mat fs mat_file name io_system st = (.error .nameError, []) := by
  intro fs mat_file name io_system st
  rfl

/-! ### Claim C10: no side effects beyond reading the input file -/

/-- Claim C10: the conversion performs no write and no global-state
mutation.  The effect trace of every `parse_mat` call, and of the file
loading and conversion body on its own (the code past the failing
`logging.debug` line), contains only read effects; the field map is plain
data that no step of the embedding rebinds. -/
theorem C10_no_side_effects :
    ∀ (fs : String → Option MatFile) (mat_file name io_system : String) (st : MatStruct),
    (parse_mat fs mat_file name io_system st).2.all Effect.isRead = true ∧
    (parse_mat_body fs mat_file name io_system st).2.all Effect.isRead = true := by
  intro fs mat_file name io_system st
  constructor
  · rfl
  · unfold parse_mat_body loadmat liftE effBind
    cases fs mat_file <;> simp [Effect.isRead]

/-! ### Claim C2: the compartment/unit fallback policy -/

/-- Claim C2 counterexample: the container `emptyUnitFile` has one
stressor row with compartment field `air` and unit field the empty
string.  The sliced unit sub-field is empty (`len` is 0), the run
succeeds, the returned compartment is the sentinel `n/a` as claimed, but
the returned unit is the empty string, not the originally sliced
compartment value `air`: the claimed fallback swap does not happen for an
empty unit that is a `str`, refuting the claim and its scenario. -/
theorem C2_counterexample :
    pyLen (MatCell.str "") = 0 ∧
    emptyUnitRunOk = true ∧
    emptyUnitRunIndex = [(MatCell.str "CO2", MatCell.str "n/a")] ∧
    emptyUnitRunUnits = [MatCell.str ""] ∧
    MatCell.str "" ≠ MatCell.str "air" := by
  decide

/-- Claim C2 as amended: for every stressor row, the returned compartment
is the sentinel exactly when the sliced unit sub-field is empty (of
length 0), and otherwise the sliced compartment unchanged; the returned
unit is the sliced unit whenever that unit is a string — even the empty
string — and becomes the originally sliced compartment value exactly when
the sliced unit is not a string (which is how empty unit cells arrive
from the container).  So a row with compartment `air` and an empty-array
unit yields compartment `n/a` and unit `air`, while a row with
compartment `air` and unit the empty string yields compartment `n/a` and
unit the empty string. -/
theorem C2_fallback_amended :
    ∀ (ec : String) (units comps : List MatCell) (i : Nat) (u c : MatCell),
    units.get? i = some u → comps.get? i = some c →
    (llStressComp ec units comps).get? i =
      some (if pyLen u = 0 then MatCell.str ec else c) ∧
    (llStressUnit units comps).get? i =
      some (if u.isStr then u else c) := by
  intro ec units comps i u c hu hc
  constructor
  · rw [llStressComp, List.get?_zipWith', hu, hc]
    rfl
  · rw [llStressUnit, List.get?_zipWith', hu, hc]
    rfl

/-- Claim C2 amended, witness: a stressor row whose unit cell is an empty
array (length 0, not a string) and whose compartment cell is `air` yields
compartment `n/a` and unit `air`. -/
theorem C2_fallback_amended_witness :
    [MatCell.arr 0].get? 0 = some (MatCell.arr 0) ∧
    [MatCell.str "air"].get? 0 = some (MatCell.str "air") ∧
    (llStressComp "n/a" [MatCell.arr 0] [MatCell.str "air"]).get? 0 =
      some (MatCell.str "n/a") ∧
    (llStressUnit [MatCell.arr 0] [MatCell.str "air"]).get? 0 =
      some (MatCell.str "air") :=
  ⟨by decide, by decide,
   ((C2_fallback_amended "n/a" [MatCell.arr 0] [MatCell.str "air"] 0
      (MatCell.arr 0) (MatCell.str "air") (by decide) (by decide)).1).trans (by decide),
   ((C2_fallback_amended "n/a" [MatCell.arr 0] [MatCell.str "air"] 0
      (MatCell.arr 0) (MatCell.str "air") (by decide) (by decide)).2).trans (by decide)⟩

/-! ### Claim C4: the provenance record is built but discarded -/

/-- The `meta` attribute of the object returned for the small valid
container (defaulting to the built record if the run failed, so that the
theorem below can only hold because the run succeeds and carries no
record). -/
def sampleRunMetaAttr : Option MRIOMetaData :=
  match parse_mat_core sampleFile "d/io.mat" "nm" "pxp" MAT_STRUCTURE with
  | .ok o => o.meta
  | .error _ => some (parse_mat_meta_rec "d/io.mat" "nm" "pxp" (.strV "v1"))

/-- Claim C4: the conversion is supposed to return the provenance record
attached to or alongside the Domain Object.  The record is indeed built
with the source file's containing directory, the fixed descriptive
string, the caller-supplied name and system tag, the file's version and
one appended log entry naming the source path — but the returned object
carries no record at all: `parse_mat` returns only `io_to_py` and the
freshly built `meta_rec` is discarded. -/
theorem C4_meta_record_discarded :
    sampleRunMetaAttr = none ∧
    parse_mat_meta_rec "d/io.mat" "nm" "pxp" (MatValue.strV "v1") =
      ⟨"d", "MRIO parsed from NTNU mat structure", "nm", "pxp", MatValue.strV "v1",
       ["MAT MRIO structure parsed from d/io.mat"]⟩ := by
  decide

/-! ### Claim C8: the system tag comes from the caller -/

/-- Claim C8: for every input container and every caller-supplied
io_system value, the system tag of the returned Domain Object equals the
caller-supplied parameter; since this holds for all containers at once,
it is never read from the file's contents. -/
theorem C8_iosystem_from_caller :
    ∀ (f : MatFile) (p n i : String) (st : MatStruct) (obj : IOSystem),
    parse_mat_core f p n i st = .ok obj → obj.iosystem = i := by
  intro f p n i st obj h
  simp only [parse_mat_core, parse_sections, bind_ok_iff, pure_ok_iff,
    mkMultiIndex_ok_iff, mkDataFrame_ok_iff, mkSeriesFrame_ok_iff, asVec_ok_iff] at h
  obtain ⟨dsec, -, msec, -, a1, -, a2, -, a3, -, a4, -, a5, -, a6, -, a7, -,
    mon, ⟨-, -⟩, fd, ⟨-, -⟩, strs, ⟨-, -⟩, ver, -, yr, -,
    mZ, -, dfZ, ⟨-, -, -⟩, mY, -, dfY, ⟨-, -, -⟩, mF, -, dfF, ⟨-, -, -⟩,
    mFh, -, dfFh, ⟨-, -, -⟩, vu, -, vU, -, dfU, ⟨-, -, -⟩, dfFU, ⟨-, -, -⟩, hobj⟩ := h
  subst hobj
  rfl

/-- Claim C8 witness: on the small valid container with caller tag `pxp`
the returned object's system tag is `pxp`. -/
theorem C8_iosystem_from_caller_witness :
    parse_mat_core sampleFile "d/io.mat" "nm" "pxp" MAT_STRUCTURE = .ok sampleObj ∧
    sampleObj.iosystem = "pxp" :=
  ⟨by decide,
   C8_iosystem_from_caller sampleFile "d/io.mat" "nm" "pxp" MAT_STRUCTURE sampleObj
     (by decide)⟩

/-! ### Claim C9: stable label order, values unchanged -/

/-- Claim C9: the flow table's row and column labels are exactly the
positional pairs of the region column and the sector column, in container
order, and its numeric block is the stored flow matrix unchanged beyond
dense conversion. -/
theorem C9_labels_order :
    ∀ (f : MatFile) (p n i : String) (st : MatStruct) (obj : IOSystem)
      (regs secs : List MatCell) (zm : DenseM),
    parse_mat_core f p n i st = .ok obj →
    monRegsOf f st = .ok regs →
    monSecsOf f st = .ok secs →
    flowDenseOf f st = .ok zm →
    obj.Z.index = regs.zip secs ∧ obj.Z.columns = regs.zip secs ∧
    obj.Z.values = zm := by
  intro f p n i st obj regs secs zm h hregs hsecs hzm
  simp only [parse_mat_core, parse_sections, bind_ok_iff, pure_ok_iff,
    mkMultiIndex_ok_iff, mkDataFrame_ok_iff, mkSeriesFrame_ok_iff, asVec_ok_iff] at h
  obtain ⟨dsec, hds, msec, hms, a1, h1, a2, h2, a3, -, a4, -, a5, -, a6, -, a7, -,
    mon, ⟨hmlen, hmzip⟩, fd, ⟨-, -⟩, strs, ⟨-, -⟩, ver, -, yr, -,
    mZ, hmZ, dfZ, ⟨-, -, hZdf⟩, mY, -, dfY, ⟨-, -, -⟩, mF, -, dfF, ⟨-, -, -⟩,
    mFh, -, dfFh, ⟨-, -, -⟩, vu, -, vU, -, dfU, ⟨-, -, -⟩, dfFU, ⟨-, -, -⟩, hobj⟩ := h
  unfold monRegsOf at hregs
  rw [bind_ok_iff] at hregs
  obtain ⟨msec2, hms2, hregs⟩ := hregs
  rw [hms] at hms2
  cases hms2
  rw [h2] at hregs
  cases hregs
  unfold monSecsOf at hsecs
  rw [bind_ok_iff] at hsecs
  obtain ⟨msec3, hms3, hsecs⟩ := hsecs
  rw [hms] at hms3
  cases hms3
  rw [h1] at hsecs
  cases hsecs
  unfold flowDenseOf at hzm
  rw [bind_ok_iff] at hzm
  obtain ⟨dsec2, hds2, hzm⟩ := hzm
  rw [hds] at hds2
  cases hds2
  rw [hmZ] at hzm
  cases hzm
  subst hobj hZdf hmzip
  exact ⟨rfl, rfl, rfl⟩

/-- Claim C9 witness: the scenario container (regions R1, R2; sectors S1,
S2; flow matrix rows (1, 2) and (3, 4)) yields a flow table with label
pairs (R1, S1) then (R2, S2) on both axes and the numeric values
unchanged. -/
theorem C9_labels_order_witness :
    parse_mat_core sampleFile "d/io.mat" "nm" "pxp" MAT_STRUCTURE = .ok sampleObj ∧
    sampleObj.Z.index = [(MatCell.str "R1", MatCell.str "S1"),
                         (MatCell.str "R2", MatCell.str "S2")] ∧
    sampleObj.Z.columns = [(MatCell.str "R1", MatCell.str "S1"),
                           (MatCell.str "R2", MatCell.str "S2")] ∧
    sampleObj.Z.values = ⟨[[1, 2], [3, 4]]⟩ :=
  ⟨by decide,
   ((C9_labels_order sampleFile "d/io.mat" "nm" "pxp" MAT_STRUCTURE sampleObj
      [MatCell.str "R1", MatCell.str "R2"] [MatCell.str "S1", MatCell.str "S2"]
      ⟨[[1, 2], [3, 4]]⟩ (by decide) (by decide) (by decide) (by decide)).1).trans
     (by decide),
   ((C9_labels_order sampleFile "d/io.mat" "nm" "pxp" MAT_STRUCTURE sampleObj
      [MatCell.str "R1", MatCell.str "R2"] [MatCell.str "S1", MatCell.str "S2"]
      ⟨[[1, 2], [3, 4]]⟩ (by decide) (by decide) (by decide) (by decide)).2.1).trans
     (by decide),
   (C9_labels_order sampleFile "d/io.mat" "nm" "pxp" MAT_STRUCTURE sampleObj
      [MatCell.str "R1", MatCell.str "R2"] [MatCell.str "S1", MatCell.str "S2"]
      ⟨[[1, 2], [3, 4]]⟩ (by decide) (by decide) (by decide) (by decide)).2.2⟩

/-! ### Claim C5: matrix shapes against label sequence lengths -/

/-- Claim C5: on every successful conversion the flow matrix is square
with row and column counts equal to the monetary label sequence length,
and the final-demand matrix has that same row count with column count
equal to the final-demand label sequence length; and whenever a matrix's
dimensions disagree with its label sequence lengths, the table
constructor the conversion uses fails with the shape-mismatch error. -/
theorem C5_matrix_shapes :
    (∀ (f : MatFile) (p n i : String) (st : MatStruct) (obj : IOSystem)
       (regs fdregs : List MatCell),
     parse_mat_core f p n i st = .ok obj →
     monRegsOf f st = .ok regs →
     fdRegsOf f st = .ok fdregs →
     obj.Z.values.rows = regs.length ∧ obj.Z.values.cols = regs.length ∧
     obj.Y.values.rows = regs.length ∧ obj.Y.values.cols = fdregs.length) ∧
    (∀ (m : DenseM) (idx cols : List Lab),
     ¬(m.rows = idx.length ∧ m.cols = cols.length) →
     mkDataFrame m idx cols = .error .valueError) := by
  constructor
  · intro f p n i st obj regs fdregs h hregs hfdregs
    simp only [parse_mat_core, parse_sections, bind_ok_iff, pure_ok_iff,
      mkMultiIndex_ok_iff, mkDataFrame_ok_iff, mkSeriesFrame_ok_iff, asVec_ok_iff] at h
    obtain ⟨dsec, hds, msec, hms, a1, h1, a2, h2, a3, h3, a4, h4, a5, -, a6, -, a7, -,
      mon, ⟨hmlen, hmzip⟩, fd, ⟨hflen, hfzip⟩, strs, ⟨-, -⟩, ver, -, yr, -,
      mZ, -, dfZ, ⟨hZr, hZc, hZdf⟩, mY, -, dfY, ⟨hYr, hYc, hYdf⟩, mF, -, dfF, ⟨-, -, -⟩,
      mFh, -, dfFh, ⟨-, -, -⟩, vu, -, vU, -, dfU, ⟨-, -, -⟩, dfFU, ⟨-, -, -⟩, hobj⟩ := h
    unfold monRegsOf at hregs
    rw [bind_ok_iff] at hregs
    obtain ⟨msec2, hms2, hregs⟩ := hregs
    rw [hms] at hms2
    cases hms2
    rw [h2] at hregs
    cases hregs
    unfold fdRegsOf at hfdregs
    rw [bind_ok_iff] at hfdregs
    obtain ⟨msec3, hms3, hfdregs⟩ := hfdregs
    rw [hms] at hms3
    cases hms3
    rw [h4] at hfdregs
    cases hfdregs
    have hmonlen : mon.length = regs.length := by
      subst hmzip
      rw [List.length_zip, hmlen, Nat.min_self]
    have hfdlen : fd.length = fdregs.length := by
      subst hfzip
      rw [List.length_zip, hflen, Nat.min_self]
    subst hobj hZdf hYdf
    exact ⟨hZr.trans hmonlen, hZc.trans hmonlen, hYr.trans hmonlen, hYc.trans hfdlen⟩
  · intro m idx cols hne
    unfold mkDataFrame
    rw [if_neg hne]

/-- Claim C5 witness: on the small valid container the flow block is 2 by
2 against the two monetary labels, the final-demand block is 2 by 1
against the one final-demand label, and a 1-by-2 data block against two
row labels is rejected with the shape-mismatch error. -/
theorem C5_matrix_shapes_witness :
    parse_mat_core sampleFile "d/io.mat" "nm" "pxp" MAT_STRUCTURE = .ok sampleObj ∧
    sampleObj.Z.values.rows = 2 ∧ sampleObj.Z.values.cols = 2 ∧
    sampleObj.Y.values.rows = 2 ∧ sampleObj.Y.values.cols = 1 ∧
    mkDataFrame ⟨[[1, 2]]⟩ sampleMon sampleMon = .error .valueError :=
  ⟨by decide,
   ((C5_matrix_shapes.1 sampleFile "d/io.mat" "nm" "pxp" MAT_STRUCTURE sampleObj
      [MatCell.str "R1", MatCell.str "R2"] [MatCell.str "R1"]
      (by decide) (by decide) (by decide)).1).trans (by decide),
   ((C5_matrix_shapes.1 sampleFile "d/io.mat" "nm" "pxp" MAT_STRUCTURE sampleObj
      [MatCell.str "R1", MatCell.str "R2"] [MatCell.str "R1"]
      (by decide) (by decide) (by decide)).2.1).trans (by decide),
   ((C5_matrix_shapes.1 sampleFile "d/io.mat" "nm" "pxp" MAT_STRUCTURE sampleObj
      [MatCell.str "R1", MatCell.str "R2"] [MatCell.str "R1"]
      (by decide) (by decide) (by decide)).2.2.1).trans (by decide),
   ((C5_matrix_shapes.1 sampleFile "d/io.mat" "nm" "pxp" MAT_STRUCTURE sampleObj
      [MatCell.str "R1", MatCell.str "R2"] [MatCell.str "R1"]
      (by decide) (by decide) (by decide)).2.2.2).trans (by decide),
   C5_matrix_shapes.2 ⟨[[1, 2]]⟩ sampleMon sampleMon (by decide)⟩

/-! ### Claim C6: a missing configured key is fatal -/

/-- Claim C6: when any configured key is absent from the deserialized
container at its expected nesting level, the conversion fails with an
error and produces no Domain Object at all (every successful run has all
required keys present, so a missing key forces the error branch). -/
theorem C6_missing_key_fails :
    ∀ (f : MatFile) (p n i : String) (st : MatStruct),
    requiredKeysPresent st f = false →
    ∃ e, parse_mat_core f p n i st = .error e := by
  intro f p n i st hmiss
  cases h : parse_mat_core f p n i st with
  | error e => exact ⟨e, rfl⟩
  | ok obj =>
    exfalso
    simp only [parse_mat_core, parse_sections, bind_ok_iff, pure_ok_iff,
      mkMultiIndex_ok_iff, mkDataFrame_ok_iff, mkSeriesFrame_ok_iff, asVec_ok_iff] at h
    obtain ⟨dsec, hds, msec, hms, a1, h1, a2, -, a3, h3, a4, -, a5, h5, a6, -, a7, -,
      mon, ⟨-, -⟩, fd, ⟨-, -⟩, strs, ⟨-, -⟩, ver, hver, yr, hyr,
      mZ, hmZ, dfZ, ⟨-, -, -⟩, mY, hmY, dfY, ⟨-, -, -⟩, mF, hmF, dfF, ⟨-, -, -⟩,
      mFh, hmFh, dfFh, ⟨-, -, -⟩, vu, hvu, vU, -, dfU, ⟨-, -, -⟩,
      dfFU, ⟨-, -, -⟩, -⟩ := h
    have hall : requiredKeysPresent st f = true := by
      unfold requiredKeysPresent
      rw [getSection_ok_lookup hds, getSection_ok_lookup hms]
      simp [getDense_ok_lookup hmZ, getDense_ok_lookup hmY, getDense_ok_lookup hmF,
        getDense_ok_lookup hmFh, colSliceOf_ok_lookup h1, colSliceOf_ok_lookup h3,
        colSliceOf_ok_lookup h5, dictGet_ok_lookup hvu, dictGet_ok_lookup hver,
        dictGet_ok_lookup hyr]
    rw [hall] at hmiss
    exact Bool.noConfusion hmiss

/-- Claim C6 witness: the small container with the flow-matrix key
removed has a missing required key, and the conversion on it fails — with
the missing-key error. -/
theorem C6_missing_key_fails_witness :
    requiredKeysPresent MAT_STRUCTURE missingKeyFile = false ∧
    (∃ e, parse_mat_core missingKeyFile "f" "nm" "pxp" MAT_STRUCTURE = .error e) ∧
    parse_mat_core missingKeyFile "f" "nm" "pxp" MAT_STRUCTURE = .error .keyError :=
  ⟨by decide,
   C6_missing_key_fails missingKeyFile "f" "nm" "pxp" MAT_STRUCTURE (by decide),
   by decide⟩

/-! ### Claim C3: all-or-nothing conversion -/

/-- Claim C3: the conversion of a loaded container either fails with an
error — exposing no object at all — or returns a Domain Object that is
complete and internally consistent: all four matrices and both unit
tables mutually aligned, with value blocks exactly matching their label
sequences.  No partial-success state exists. -/
theorem C3_all_or_nothing :
    ∀ (f : MatFile) (p n i : String) (st : MatStruct),
    (∃ e, parse_mat_core f p n i st = .error e) ∨
    (∃ obj, parse_mat_core f p n i st = .ok obj ∧ ConsistentObj obj) := by
  intro f p n i st
  cases h : parse_mat_core f p n i st with
  | error e => exact .inl ⟨e, rfl⟩
  | ok obj =>
    refine .inr ⟨obj, rfl, ?_⟩
    simp only [parse_mat_core, parse_sections, bind_ok_iff, pure_ok_iff,
      mkMultiIndex_ok_iff, mkDataFrame_ok_iff, mkSeriesFrame_ok_iff, asVec_ok_iff] at h
    obtain ⟨dsec, -, msec, -, a1, -, a2, -, a3, -, a4, -, a5, -, a6, -, a7, -,
      mon, ⟨hmlen, hmzip⟩, fd, ⟨hflen, hfzip⟩, strs, ⟨hslen, hszip⟩, ver, -, yr, -,
      mZ, -, dfZ, ⟨hZr, hZc, hZdf⟩, mY, -, dfY, ⟨hYr, hYc, hYdf⟩,
      mF, -, dfF, ⟨hFr, hFc, hFdf⟩, mFh, -, dfFh, ⟨hFhr, hFhc, hFhdf⟩,
      vu, -, vU, -, dfU, ⟨hUl, hUc, hUdf⟩, dfFU, ⟨hFUl, hFUc, hFUdf⟩, hobj⟩ := h
    subst hobj hZdf hYdf hFdf hFhdf hUdf hFUdf
    exact ⟨rfl, hZr, hZc, rfl, hYr, hYc, rfl, hUl, rfl, hFr, hFc, rfl, rfl,
      hFhr, hFhc, rfl, hFUl⟩

/-! ### Claim C7: sparse and dense encodings are equivalent -/

theorem lookup_map_keyed {b : Type} (g : String → b → b) :
    ∀ (l : List (String × b)) (k : String),
    List.lookup k (l.map fun p => (p.1, g p.1 p.2)) = (List.lookup k l).map (g k) := by
  intro l k
  induction l with
  | nil => rfl
  | cons p t ih =>
    rcases p with ⟨a, v⟩
    simp only [List.map, List.lookup]
    cases hk : k == a with
    | true =>
      have hka : k = a := eq_of_beq hk
      subst hka
      simp
    | false => simpa using ih

theorem dictGet_densifyDict (d : PyDict) (k : String) :
    dictGet (densifyDict d) k = (dictGet d k).map densifyValue := by
  unfold dictGet densifyDict
  rw [lookup_map_keyed (fun _ v => densifyValue v) d k]
  cases d.lookup k <;> rfl

theorem getDense_densifyDict (d : PyDict) (k : String) :
    getDense (densifyDict d) k = getDense d k := by
  unfold getDense
  rw [dictGet_densifyDict]
  cases hv : dictGet d k with
  | error e => rfl
  | ok v => cases v <;> rfl

theorem getSection_densifyData_data (st : MatStruct) (f : MatFile) :
    getSection (densifyDataSection st f) st.data = (getSection f st.data).map densifyDict := by
  unfold getSection densifyDataSection
  rw [lookup_map_keyed (fun k d => if k = st.data then densifyDict d else d) f st.data]
  cases f.lookup st.data <;> simp [Except.map]

theorem getSection_densifyData_other (st : MatStruct) (f : MatFile) (k : String)
    (hk : k ≠ st.data) :
    getSection (densifyDataSection st f) k = getSection f k := by
  unfold getSection densifyDataSection
  rw [lookup_map_keyed (fun k d => if k = st.data then densifyDict d else d) f k]
  cases f.lookup k <;> simp [hk]

theorem parse_sections_densifyDict (dsec msec : PyDict) (p n i : String) (st : MatStruct) :
    parse_sections (densifyDict dsec) msec p n i st = parse_sections dsec msec p n i st := by
  simp only [parse_sections, getDense_densifyDict]

/-- Claim C7: storing the data section's matrices sparsely or densely
makes no difference — a container and its densified twin (the dense
encoding of the same logical matrices) produce identical results, so the
output arrays are identical; moreover dense conversion is the identity on
an already-dense matrix (it changes no values) and is exactly the
`todense` materialisation on a sparse one. -/
theorem C7_sparse_dense_equiv :
    (∀ (f : MatFile) (p n i : String) (st : MatStruct),
     st.data ≠ st.meta →
     parse_mat_core (densifyDataSection st f) p n i st = parse_mat_core f p n i st) ∧
    (∀ m : DenseM, toDenseIfSparse (.dense m) = m) ∧
    (∀ s : SparseM, toDenseIfSparse (.sparse s) = s.toDense) := by
  refine ⟨?_, fun m => rfl, fun s => rfl⟩
  intro f p n i st hne
  unfold parse_mat_core
  rw [getSection_densifyData_data]
  cases hdd : getSection f st.data with
  | error e => rfl
  | ok dsec =>
    simp only [Except.map, Bind.bind, Except.bind]
    rw [getSection_densifyData_other st f st.meta (Ne.symm hne)]
    cases getSection f st.meta with
    | error e => rfl
    | ok msec => exact parse_sections_densifyDict dsec msec p n i st

/-- Claim C7 witness: on the container whose flow matrix is stored
sparsely, densifying the data section changes nothing, and the run
produces exactly the object obtained from the all-dense container. -/
theorem C7_sparse_dense_equiv_witness :
    MAT_STRUCTURE.data ≠ MAT_STRUCTURE.meta ∧
    parse_mat_core (densifyDataSection MAT_STRUCTURE sparseFile) "d/io.mat" "nm" "pxp"
        MAT_STRUCTURE =
      parse_mat_core sparseFile "d/io.mat" "nm" "pxp" MAT_STRUCTURE ∧
    parse_mat_core sparseFile "d/io.mat" "nm" "pxp" MAT_STRUCTURE = .ok sampleObj :=
  ⟨by decide,
   C7_sparse_dense_equiv.1 sparseFile "d/io.mat" "nm" "pxp" MAT_STRUCTURE (by decide),
   by decide⟩

end NTNU
